import Mathlib

/-!
# QuickCourt — Booking Availability & Conflict Model

A shallow embedding of the booking-conflict and availability model of the
QuickCourt repository:

* `check_booking_conflicts` and `calculate_booking_duration` are translated
  from the SQL utility functions in
  `supabase/migrations/20250924062155_rapid_spring.sql`;
* the `bookings` table's status/payment enumerations and defaults come from
  the same migration (section 7);
* the notification triggers `notify_owner_on_booking` and
  `notify_customer_on_status_change` (section 25) are translated as the
  notification-appending parts of the operations;
* the `POST /api/bookings` Express handler is translated from
  `server/routes.ts`;
* the orchestration of `CreateBooking` / `SetBookingStatus` (conflict-guarded
  insert, status-transition table) is not implemented as code in the
  repository and is modelled from the specification, as marked on each
  definition.

Times of day are modelled as seconds since midnight (`Nat`), calendar dates
as day indices (`Nat`), identifiers as `Nat`, and SQL `DECIMAL` values as `ℚ`.
-/

/-- Booking status enumeration, from the `bookings.status` CHECK constraint:
`status IN ('pending', 'approved', 'denied', 'cancelled', 'completed')`. -/
inductive BookingStatus where
  | pending
  | approved
  | denied
  | cancelled
  | completed
deriving Repr, DecidableEq

/-- Payment status enumeration, from the `bookings.payment_status` CHECK
constraint: `payment_status IN ('pending', 'paid', 'refunded', 'failed')`. -/
inductive PaymentStatus where
  | pending
  | paid
  | refunded
  | failed
deriving Repr, DecidableEq

/-- Text rendering of a booking status, as it appears in the SQL string
concatenations of the notification triggers. -/
def BookingStatus.text : BookingStatus → String
  | .pending => "pending"
  | .approved => "approved"
  | .denied => "denied"
  | .cancelled => "cancelled"
  | .completed => "completed"

/-- A row of the `bookings` table (the columns the model needs). -/
structure Booking where
  id : Nat
  facilityId : Nat
  customerId : Nat
  bookingDate : Nat
  startTime : Nat
  endTime : Nat
  totalHours : ℚ
  totalAmount : ℚ
  status : BookingStatus
  paymentStatus : PaymentStatus
deriving Repr, DecidableEq

/-- A row of the `booking_notifications` table (the columns the model needs). -/
structure Notification where
  userId : Nat
  bookingId : Nat
  notificationType : String
  title : String
  message : String
deriving Repr, DecidableEq

/-- A row of the `facilities` table (the columns the model needs). -/
structure Facility where
  id : Nat
  ownerId : Nat
  defaultPricePerHour : ℚ
deriving Repr, DecidableEq

/-- A row of the `facility_schedules` table (the columns the model needs). -/
structure ScheduleSlot where
  facilityId : Nat
  dayOfWeek : Nat
  startTime : Nat
  endTime : Nat
  pricePerHour : ℚ
  isAvailable : Bool
deriving Repr, DecidableEq

/-- The interval-overlap condition of `check_booking_conflicts`, verbatim from
the SQL (including its redundant second disjunct):
`(start_time < p_end_time AND end_time > p_start_time) OR
 (p_start_time < end_time AND p_end_time > start_time)`,
applied to the existing booking's interval `(s1, e1)` and the query interval
`(s2, e2)`. -/
def overlapTest (s1 e1 s2 e2 : Nat) : Bool :=
  (decide (s1 < e2) && decide (e1 > s2)) || (decide (s2 < e1) && decide (e2 > s1))

/-- `check_booking_conflicts(p_facility_id, p_booking_date, p_start_time,
p_end_time, p_exclude_booking_id DEFAULT NULL)` from the migration: true iff
some stored booking has the same facility and date, status `pending` or
`approved`, an id different from the excluded one (when given), and passes the
overlap test. The stored table is passed explicitly as a list of rows. -/
def check_booking_conflicts (bookings : List Booking) (pFacilityId pBookingDate pStartTime pEndTime : Nat) (pExcludeBookingId : Option Nat) : Bool :=
  bookings.any fun b =>
    decide (b.facilityId = pFacilityId) &&
    decide (b.bookingDate = pBookingDate) &&
    (decide (b.status = .pending) || decide (b.status = .approved)) &&
    (match pExcludeBookingId with
     | none => true
     | some x => decide (b.id ≠ x)) &&
    overlapTest b.startTime b.endTime pStartTime pEndTime

/-- `calculate_booking_duration(p_start_time, p_end_time)` from the migration:
`EXTRACT(EPOCH FROM (p_end_time - p_start_time)) / 3600.0`. Subtraction of two
`TIME` values yields a (possibly negative) interval whose epoch is its length
in seconds, hence the signed difference. -/
def calculate_booking_duration (pStartTime pEndTime : Nat) : ℚ :=
  (((pEndTime : ℤ) - (pStartTime : ℤ) : ℤ) : ℚ) / 3600

/-- Seconds since midnight for a clock time `h:m`. -/
def hm (h m : Nat) : Nat :=
  h * 3600 + m * 60

/-- The persisted state the operations act on: the `bookings` and
`booking_notifications` tables, the `facilities` and `facility_schedules`
tables (read-only here), and the id supply for new bookings. -/
structure St where
  bookings : List Booking
  notifications : List Notification
  facilities : List Facility
  schedules : List ScheduleSlot
  nextId : Nat
deriving Repr, DecidableEq

/-- Error kinds of the model (spec §7); `notFound` covers a status update
addressed to a nonexistent booking id, which the spec leaves unspecified. -/
inductive BError where
  | conflictError
  | stateError
  | notFound
deriving Repr, DecidableEq

/-- `create_booking_notification` from the migration: appends one row to
`booking_notifications`. -/
def create_booking_notification (notifications : List Notification) (pBookingId pUserId : Nat) (pNotificationType pTitle pMessage : String) : List Notification :=
  { bookingId := pBookingId, userId := pUserId, notificationType := pNotificationType,
    title := pTitle, message := pMessage } :: notifications

/-- `notify_owner_on_booking` from the migration: on insert of a booking,
look up the facility owner and create a `new_booking` notification for them
with the trigger's title and message strings. -/
def notify_owner_on_booking (st : St) (new : Booking) : List Notification :=
  let ownerId := ((st.facilities.find? fun f => f.id == new.facilityId).map Facility.ownerId).getD 0
  create_booking_notification st.notifications new.id ownerId "new_booking"
    "New Booking Request"
    ("You have a new booking request for " ++ toString new.bookingDate ++
      " from " ++ toString new.startTime ++ " to " ++ toString new.endTime)

/-- `notify_customer_on_status_change` from the migration: after an update of
a booking, if `OLD.status != NEW.status`, create a `status_update`
notification for the customer; otherwise create nothing. -/
def notify_customer_on_status_change (notifications : List Notification) (old new : Booking) : List Notification :=
  if old.status ≠ new.status then
    create_booking_notification notifications new.id new.customerId "status_update"
      ("Booking " ++ new.status.text)
      ("Your booking for " ++ toString new.bookingDate ++ " has been " ++ new.status.text)
  else
    notifications

/-- Modelled from the spec: the pricing resolution of `CreateBooking` step 2
("resolve `totalAmount` from the applicable Schedule Slot's price-per-hour
(or a facility default if no slot matches)"), which no code in the repository
implements. The day of week of a date is its day index mod 7. -/
def resolveAmount (st : St) (facilityId bookingDate startTime endTime : Nat) : ℚ :=
  let perHour :=
    match st.schedules.find? fun sl =>
        sl.facilityId == facilityId && sl.dayOfWeek == bookingDate % 7 &&
        sl.startTime ≤ startTime && endTime ≤ sl.endTime && sl.isAvailable with
    | some sl => sl.pricePerHour
    | none => ((st.facilities.find? fun f => f.id == facilityId).map
        Facility.defaultPricePerHour).getD 0
  perHour * calculate_booking_duration startTime endTime

/-- Modelled from the spec: the `CreateBooking` operation (§4.1), which the
repository does not implement as a single code path — the Express route in
`server/routes.ts` inserts without any conflict check, and the SQL migration
only supplies the pieces. Step 1 uses the source's `check_booking_conflicts`;
step 2 persists a booking with the `bookings` table's default `status
'pending'` and `payment_status 'pending'` and with `total_hours` from the
source's `calculate_booking_duration`; step 3 is the source's
`notify_owner_on_booking` trigger. -/
def createBooking (st : St) (facilityId customerId bookingDate startTime endTime : Nat) : Except BError (St × Booking) :=
  if check_booking_conflicts st.bookings facilityId bookingDate startTime endTime none then
    .error .conflictError
  else
    let b : Booking :=
      { id := st.nextId, facilityId := facilityId, customerId := customerId,
        bookingDate := bookingDate, startTime := startTime, endTime := endTime,
        totalHours := calculate_booking_duration startTime endTime,
        totalAmount := resolveAmount st facilityId bookingDate startTime endTime,
        status := .pending, paymentStatus := .pending }
    .ok ({ st with
            bookings := b :: st.bookings,
            notifications := notify_owner_on_booking st b,
            nextId := st.nextId + 1 }, b)

/-- Modelled from the spec: the status-transition table of `SetBookingStatus`
(§4.1): `pending → approved`, `pending → denied`, `{pending, approved} →
cancelled`, `approved → completed`; the repository's code nowhere restricts
transitions (the SQL CHECK constraint only limits the value set). -/
def validTransition : BookingStatus → BookingStatus → Bool
  | .pending, .approved => true
  | .pending, .denied => true
  | .pending, .cancelled => true
  | .approved, .cancelled => true
  | .approved, .completed => true
  | _, _ => false

/-- Modelled from the spec: the `SetBookingStatus` operation (§4.1), not
implemented as a single code path in the repository. A transition outside
`validTransition` fails with `StateError`; a valid one updates the booking's
status row, and the source's `notify_customer_on_status_change` trigger runs
on the update. Authorization (the SQL row-level policies) is outside this
model. -/
def setBookingStatus (st : St) (bookingId : Nat) (newStatus : BookingStatus) : Except BError (St × Booking) :=
  match st.bookings.find? fun b => b.id == bookingId with
  | none => .error .notFound
  | some old =>
    if validTransition old.status newStatus then
      let new : Booking := { old with status := newStatus }
      .ok ({ st with
              bookings := st.bookings.map fun b => if b.id == bookingId then new else b,
              notifications := notify_customer_on_status_change st.notifications old new }, new)
    else
      .error .stateError

/-- One external call: a `CreateBooking` or a `SetBookingStatus` attempt. -/
inductive Op where
  | create (facilityId customerId bookingDate startTime endTime : Nat)
  | setStatus (bookingId : Nat) (newStatus : BookingStatus)
deriving Repr, DecidableEq

/-- Run one call against the state: a successful call installs its new state,
a failed call leaves the state unchanged. -/
def applyOp (st : St) : Op → St
  | .create f c d s e =>
    match createBooking st f c d s e with
    | .ok (st', _) => st'
    | .error _ => st
  | .setStatus bid ns =>
    match setBookingStatus st bid ns with
    | .ok (st', _) => st'
    | .error _ => st

/-- A booking counts against availability iff its status is `pending` or
`approved` (the status filter of `check_booking_conflicts`). -/
def activeB (b : Booking) : Bool :=
  decide (b.status = .pending) || decide (b.status = .approved)

/-- Two bookings overlap when they are on the same facility and date and
their `[start, end)` intervals pass the overlap test. -/
def overlapping (b1 b2 : Booking) : Bool :=
  b1.facilityId == b2.facilityId && b1.bookingDate == b2.bookingDate &&
    overlapTest b1.startTime b1.endTime b2.startTime b2.endTime

/-- Boolean pairwise predicate over a list. -/
def pairwiseB (r : Booking → Booking → Bool) : List Booking → Bool
  | [] => true
  | b :: bs => bs.all (r b) && pairwiseB r bs

/-- The no-overlap invariant: no two stored bookings that are both active
overlap. -/
def conflictFree (bs : List Booking) : Bool :=
  pairwiseB (fun b1 b2 => !(activeB b1 && activeB b2 && overlapping b1 b2)) bs

/-- Well-formedness of a state: every stored booking id is below the id
supply, and ids are pairwise distinct. -/
def wfSt (st : St) : Bool :=
  st.bookings.all (fun b => b.id < st.nextId) &&
    pairwiseB (fun b1 b2 => b1.id != b2.id) st.bookings

/-!
## The Express route layer (`server/routes.ts`)

`POST /api/bookings` reads `userId, facilityId, courtId, date, timeSlot,
totalPrice` from the request body, rejects with 400 "Missing required fields"
when `!userId || !facilityId || !courtId || !date || !timeSlot?.start ||
!timeSlot?.end`, and otherwise pushes a new booking and responds 201 with it.
String-valued fields are modelled as `Option String` (absent = `none`); a
JavaScript string is falsy exactly when it is absent, `null`, or empty, so
the `!field` tests become `jsFalsy`. The nondeterministic `createdAt`
timestamp is omitted.
-/

/-- The `timeSlot` object of the request body. -/
structure TimeSlotReq where
  start : Option String
  «end» : Option String
deriving Repr, DecidableEq

/-- The request body of `POST /api/bookings`. -/
structure BookingReq where
  userId : Option String
  facilityId : Option String
  courtId : Option String
  date : Option String
  timeSlot : Option TimeSlotReq
  totalPrice : Option ℚ
deriving Repr, DecidableEq

/-- JavaScript truthiness on an optional string: `!x` holds for a missing
value and for the empty string. -/
def jsFalsy : Option String → Bool
  | none => true
  | some s => s == ""

/-- The booking object the route layer stores (the fields of the object
literal in `routes.ts`, minus `createdAt`). -/
structure RouteBooking where
  id : String
  userId : String
  facilityId : String
  courtId : String
  date : String
  slotStart : String
  slotEnd : String
  status : String
  totalPrice : ℚ
  paymentStatus : String
deriving Repr, DecidableEq

/-- The route layer's response. -/
inductive RouteResult where
  | badRequest (message : String)
  | created (b : RouteBooking)
deriving Repr, DecidableEq

/-- The booking object the handler builds in its success branch:
`id = String(bookings.length + 1)`, `status: 'confirmed'`,
`totalPrice: totalPrice ?? 0`, `paymentStatus: 'pending'`. -/
def mkRouteBooking (bookings : List RouteBooking) (req : BookingReq) : RouteBooking :=
  { id := toString (bookings.length + 1),
    userId := req.userId.getD "",
    facilityId := req.facilityId.getD "",
    courtId := req.courtId.getD "",
    date := req.date.getD "",
    slotStart := (req.timeSlot.bind TimeSlotReq.start).getD "",
    slotEnd := (req.timeSlot.bind TimeSlotReq.«end»).getD "",
    status := "confirmed",
    totalPrice := req.totalPrice.getD 0,
    paymentStatus := "pending" }

/-- The guard of the handler: `!userId || !facilityId || !courtId || !date ||
!timeSlot?.start || !timeSlot?.end`. -/
def missingFields (req : BookingReq) : Bool :=
  jsFalsy req.userId || jsFalsy req.facilityId || jsFalsy req.courtId ||
    jsFalsy req.date || jsFalsy (req.timeSlot.bind TimeSlotReq.start) ||
    jsFalsy (req.timeSlot.bind TimeSlotReq.«end»)

/-- The `POST /api/bookings` handler from `server/routes.ts`, acting on the
in-memory `bookings` array: returns the updated array and the response. -/
def postBookings (bookings : List RouteBooking) (req : BookingReq) : List RouteBooking × RouteResult :=
  if missingFields req then
    (bookings, .badRequest "Missing required fields")
  else
    let b := mkRouteBooking bookings req
    (bookings ++ [b], .created b)

/-!
## Concrete states and requests used to instantiate the theorems
-/

/-- A facility for concrete runs. -/
def facW : Facility :=
  { id := 1, ownerId := 7, defaultPricePerHour := 20 }

/-- An empty initial state owning `facW`. -/
def st0W : St :=
  { bookings := [], notifications := [], facilities := [facW], schedules := [],
    nextId := 0 }

/-- A call sequence: a create, a conflicting create (rejected), an approval. -/
def opsW : List Op :=
  [.create 1 2 0 (hm 9 0) (hm 10 0),
   .create 1 3 0 (hm 9 30) (hm 10 30),
   .setStatus 0 .approved]

/-- A pending booking over 09:00–10:00. -/
def bkConfW : Booking :=
  { id := 0, facilityId := 1, customerId := 2, bookingDate := 0,
    startTime := hm 9 0, endTime := hm 10 0, totalHours := 1, totalAmount := 20,
    status := .pending, paymentStatus := .pending }

/-- A state holding only `bkConfW`. -/
def stConfW : St :=
  { bookings := [bkConfW], notifications := [], facilities := [facW],
    schedules := [], nextId := 1 }

/-- Fallback booking for total `match` extraction. -/
def bkDummyW : Booking :=
  { id := 0, facilityId := 0, customerId := 0, bookingDate := 0, startTime := 0,
    endTime := 0, totalHours := 0, totalAmount := 0, status := .pending,
    paymentStatus := .pending }

/-- The state and booking produced by one successful create on `st0W`. -/
def createResW : St × Booking :=
  match createBooking st0W 1 2 0 (hm 9 0) (hm 10 30) with
  | .ok p => p
  | .error _ => (st0W, bkDummyW)

/-- A denied booking with id 1. -/
def b5W : Booking :=
  { id := 1, facilityId := 1, customerId := 2, bookingDate := 0,
    startTime := hm 9 0, endTime := hm 10 0, totalHours := 1, totalAmount := 20,
    status := .denied, paymentStatus := .pending }

/-- A state holding only `b5W`. -/
def st5W : St :=
  { bookings := [b5W], notifications := [], facilities := [facW],
    schedules := [], nextId := 2 }

/-- A pending booking with id 1 and customer 5. -/
def b6W : Booking :=
  { id := 1, facilityId := 1, customerId := 5, bookingDate := 0,
    startTime := hm 9 0, endTime := hm 10 0, totalHours := 1, totalAmount := 20,
    status := .pending, paymentStatus := .pending }

/-- A state holding only `b6W`. -/
def st6W : St :=
  { bookings := [b6W], notifications := [], facilities := [facW],
    schedules := [], nextId := 2 }

/-- The state and booking produced by approving `b6W`. -/
def set6ResW : St × Booking :=
  match setBookingStatus st6W 1 .approved with
  | .ok p => p
  | .error _ => (st6W, b6W)

/-- A request whose fields are all present but whose `userId` is the empty
string. -/
def reqEmptyUserW : BookingReq :=
  { userId := some "", facilityId := some "f1", courtId := some "c1",
    date := some "2025-01-01",
    timeSlot := some { start := some "09:00", «end» := some "10:00" },
    totalPrice := some 10 }

/-- A request with `facilityId` absent. -/
def reqMissingW : BookingReq :=
  { userId := some "u1", facilityId := none, courtId := some "c1",
    date := some "2025-01-01",
    timeSlot := some { start := some "09:00", «end» := some "10:00" },
    totalPrice := some 10 }

/-- A complete request without a `totalPrice`. -/
def reqGoodW : BookingReq :=
  { userId := some "u1", facilityId := some "f1", courtId := some "c1",
    date := some "2025-01-01",
    timeSlot := some { start := some "09:00", «end» := some "10:00" },
    totalPrice := none }

/-!
## Helper lemmas
-/

/-- Propositional reading of the overlap test: the SQL's two disjuncts
collapse to the single half-open-interval overlap condition. -/
lemma overlapTest_eq_true_iff (s1 e1 s2 e2 : Nat) :
    overlapTest s1 e1 s2 e2 = true ↔ (s1 < e2 ∧ s2 < e1) := by
  simp only [overlapTest, Bool.or_eq_true, Bool.and_eq_true, decide_eq_true_eq, gt_iff_lt]
  omega

/-- Propositional reading of `overlapping`. -/
lemma overlapping_eq_true_iff (b1 b2 : Booking) :
    overlapping b1 b2 = true ↔
      (b1.facilityId = b2.facilityId ∧ b1.bookingDate = b2.bookingDate ∧
        b1.startTime < b2.endTime ∧ b2.startTime < b1.endTime) := by
  simp only [overlapping, overlapTest, Bool.and_eq_true, Bool.or_eq_true,
    decide_eq_true_eq, beq_iff_eq, gt_iff_lt]
  omega

/-- `overlapping` reads only the facility, date and interval fields, so a
status update leaves it unchanged. -/
lemma overlapping_status_left (b1 b2 : Booking) (s : BookingStatus) :
    overlapping { b1 with status := s } b2 = overlapping b1 b2 := rfl

/-- As `overlapping_status_left`, on the right argument. -/
lemma overlapping_status_right (b1 b2 : Booking) (s : BookingStatus) :
    overlapping b1 { b2 with status := s } = overlapping b1 b2 := rfl

/-- Propositional reading of `activeB`. -/
lemma activeB_eq_true_iff (b : Booking) :
    activeB b = true ↔ (b.status = .pending ∨ b.status = .approved) := by
  simp [activeB]

/-- `pairwiseB` agrees with `List.Pairwise` of the lifted relation. -/
lemma pairwiseB_iff (r : Booking → Booking → Bool) (bs : List Booking) :
    pairwiseB r bs = true ↔ bs.Pairwise (fun a b => r a b = true) := by
  induction bs with
  | nil => simp [pairwiseB]
  | cons x t ih =>
    simp [pairwiseB, List.pairwise_cons, ih, List.all_eq_true]

/-- Propositional form of the no-overlap invariant. -/
def ConflictFreeP (bs : List Booking) : Prop :=
  bs.Pairwise fun b1 b2 =>
    activeB b1 = true → activeB b2 = true → overlapping b1 b2 = false

/-- Propositional form of state well-formedness. -/
def WfP (st : St) : Prop :=
  (∀ b ∈ st.bookings, b.id < st.nextId) ∧
    st.bookings.Pairwise fun b1 b2 => b1.id ≠ b2.id

/-- The Boolean invariant check agrees with its propositional form. -/
lemma conflictFree_iff (bs : List Booking) :
    conflictFree bs = true ↔ ConflictFreeP bs := by
  unfold conflictFree ConflictFreeP
  rw [pairwiseB_iff]
  refine List.Pairwise.iff (fun a b => ?_)
  cases ha : activeB a <;> cases hb : activeB b <;> cases hov : overlapping a b <;>
    simp [ha, hb, hov]

/-- The Boolean well-formedness check agrees with its propositional form. -/
lemma wfSt_iff (st : St) : wfSt st = true ↔ WfP st := by
  unfold wfSt WfP
  rw [Bool.and_eq_true, pairwiseB_iff]
  constructor
  · rintro ⟨h1, h2⟩
    refine ⟨?_, h2.imp (fun h => by simpa using h)⟩
    intro b hb
    simpa using (List.all_eq_true.mp h1) b hb
  · rintro ⟨h1, h2⟩
    refine ⟨List.all_eq_true.mpr fun b hb => by simpa using h1 b hb,
      h2.imp (fun h => by simpa using h)⟩

/-- In a list with pairwise-distinct ids, membership with a common id forces
equality. -/
lemma mem_id_unique (bs : List Booking)
    (h : bs.Pairwise fun b1 b2 => b1.id ≠ b2.id)
    (a b : Booking) (ha : a ∈ bs) (hb : b ∈ bs) (hid : a.id = b.id) : a = b := by
  induction bs with
  | nil => cases ha
  | cons x t ih =>
    rw [List.pairwise_cons] at h
    obtain ⟨hx, ht⟩ := h
    rcases List.mem_cons.mp ha with rfl | ha'
    · rcases List.mem_cons.mp hb with rfl | hb'
      · rfl
      · exact absurd hid (hx b hb')
    · rcases List.mem_cons.mp hb with rfl | hb'
      · exact absurd hid.symm (hx a ha')
      · exact ih ht ha' hb'

/-- If `check_booking_conflicts` is false with no exclusion, then no stored
active booking on that facility and date passes the overlap test against the
query interval. -/
lemma check_false_no_overlap (bs : List Booking) (fac date s e : Nat)
    (h : check_booking_conflicts bs fac date s e none = false) :
    ∀ b ∈ bs, activeB b = true → b.facilityId = fac → b.bookingDate = date →
      overlapTest b.startTime b.endTime s e = false := by
  intro b hb hact hfac hdate
  cases hov : overlapTest b.startTime b.endTime s e
  · rfl
  · exfalso
    have hc : check_booking_conflicts bs fac date s e none = true := by
      simp only [check_booking_conflicts, List.any_eq_true]
      refine ⟨b, hb, ?_⟩
      simp only [activeB] at hact
      simp [hfac, hdate, hov, hact]
    rw [h] at hc
    exact Bool.false_ne_true hc

/-- Inversion of a successful `createBooking`. -/
lemma createBooking_ok (st : St) (f c d s e : Nat) (st' : St) (bk : Booking)
    (h : createBooking st f c d s e = .ok (st', bk)) :
    check_booking_conflicts st.bookings f d s e none = false ∧
    st'.bookings = bk :: st.bookings ∧
    bk.id = st.nextId ∧ bk.facilityId = f ∧ bk.customerId = c ∧
    bk.bookingDate = d ∧ bk.startTime = s ∧ bk.endTime = e ∧
    bk.totalHours = calculate_booking_duration s e ∧
    bk.totalAmount = resolveAmount st f d s e ∧
    bk.status = .pending ∧ bk.paymentStatus = .pending ∧
    st'.notifications = notify_owner_on_booking st bk ∧
    st'.facilities = st.facilities ∧ st'.schedules = st.schedules ∧
    st'.nextId = st.nextId + 1 := by
  unfold createBooking at h
  split at h
  · simp at h
  · rename_i hcond
    simp only [Except.ok.injEq, Prod.mk.injEq] at h
    obtain ⟨hst, hbk⟩ := h
    subst hst
    subst hbk
    refine ⟨by simpa using hcond, rfl, rfl, rfl, rfl, rfl, rfl, rfl, rfl, rfl, rfl, rfl,
      rfl, rfl, rfl, rfl⟩

/-- A valid transition never keeps the status. -/
lemma validTransition_ne (s t : BookingStatus) (h : validTransition s t = true) :
    s ≠ t := by
  cases s <;> cases t <;> simp_all [validTransition]

/-- A valid transition whose target is active has an active origin. -/
lemma validTransition_active (s t : BookingStatus) (h : validTransition s t = true)
    (ht : t = .pending ∨ t = .approved) : s = .pending ∨ s = .approved := by
  cases s <;> cases t <;> simp_all [validTransition]

/-- Inversion of a successful `setBookingStatus`. -/
lemma setBookingStatus_ok (st : St) (bid : Nat) (ns : BookingStatus)
    (st' : St) (b' : Booking)
    (h : setBookingStatus st bid ns = .ok (st', b')) :
    ∃ old, (st.bookings.find? fun b => b.id == bid) = some old ∧
      validTransition old.status ns = true ∧
      b' = { old with status := ns } ∧
      st'.bookings = st.bookings.map (fun b => if b.id == bid then b' else b) ∧
      st'.notifications = notify_customer_on_status_change st.notifications old b' ∧
      st'.facilities = st.facilities ∧ st'.schedules = st.schedules ∧
      st'.nextId = st.nextId := by
  unfold setBookingStatus at h
  split at h
  · simp at h
  · rename_i old hfind
    split at h
    · rename_i hvalid
      simp only [Except.ok.injEq, Prod.mk.injEq] at h
      obtain ⟨hst, hb'⟩ := h
      subst hst
      subst hb'
      exact ⟨old, hfind, hvalid, rfl, rfl, rfl, rfl, rfl, rfl⟩
    · simp at h

/-- A successful `createBooking` preserves well-formedness and the no-overlap
invariant. -/
lemma createBooking_preservesP (st : St) (f c d s e : Nat) (st' : St) (bk : Booking)
    (h : createBooking st f c d s e = .ok (st', bk))
    (hwf : WfP st) (hcf : ConflictFreeP st.bookings) :
    WfP st' ∧ ConflictFreeP st'.bookings := by
  obtain ⟨hcheck, hbks, hid, hfac, _, hdate, hstart, hend, _, _, _, _, _, _, _, hnext⟩ :=
    createBooking_ok st f c d s e st' bk h
  refine ⟨⟨?_, ?_⟩, ?_⟩
  · intro b hb
    rw [hbks] at hb
    rcases List.mem_cons.mp hb with rfl | hb'
    · rw [hid, hnext]; omega
    · have := hwf.1 b hb'
      rw [hnext]; omega
  · rw [hbks]
    refine List.Pairwise.cons ?_ hwf.2
    intro b hb'
    have := hwf.1 b hb'
    rw [hid]; omega
  · rw [hbks]
    refine List.Pairwise.cons ?_ hcf
    intro b2 hb2 _ hact2
    cases hov : overlapping bk b2
    · rfl
    · exfalso
      rw [overlapping_eq_true_iff] at hov
      obtain ⟨hf2, hd2, ho1, ho2⟩ := hov
      have hno := check_false_no_overlap st.bookings f d s e hcheck b2 hb2 hact2
        (by rw [← hf2, hfac]) (by rw [← hd2, hdate])
      have : ¬ (overlapTest b2.startTime b2.endTime s e = true) := by simp [hno]
      rw [overlapTest_eq_true_iff] at this
      omega

/-- A successful `setBookingStatus` preserves well-formedness and the
no-overlap invariant. -/
lemma setBookingStatus_preservesP (st : St) (bid : Nat) (ns : BookingStatus)
    (st' : St) (b' : Booking)
    (h : setBookingStatus st bid ns = .ok (st', b'))
    (hwf : WfP st) (hcf : ConflictFreeP st.bookings) :
    WfP st' ∧ ConflictFreeP st'.bookings := by
  obtain ⟨old, hfind, hvalid, hb', hbks, _, _, _, hnext⟩ :=
    setBookingStatus_ok st bid ns st' b' h
  have hmem : old ∈ st.bookings := List.mem_of_find?_eq_some hfind
  have holdid : old.id = bid := by simpa using List.find?_some hfind
  have hb'id : b'.id = bid := by rw [hb']; exact holdid
  have hfid : ∀ a : Booking, ((if a.id == bid then b' else a).id) = a.id := by
    intro a
    by_cases hbb : a.id = bid
    · simp [hbb, hb'id]
    · simp [hbb]
  have huniq : ∀ a ∈ st.bookings, a.id = bid → a = old := by
    intro a ha haid
    exact mem_id_unique st.bookings hwf.2 a old ha hmem (by rw [haid, holdid])
  refine ⟨⟨?_, ?_⟩, ?_⟩
  · intro b hb
    rw [hbks] at hb
    obtain ⟨a, ha, rfl⟩ := List.mem_map.mp hb
    rw [hfid a, hnext]
    exact hwf.1 a ha
  · rw [hbks, List.pairwise_map]
    exact hwf.2.imp fun {a b} hab => by rw [hfid a, hfid b]; exact hab
  · unfold ConflictFreeP
    rw [hbks, List.pairwise_map]
    refine List.Pairwise.imp_of_mem ?_ hcf
    intro a b ha hb hab
    by_cases haid : a.id = bid
    · have haold : a = old := huniq a ha haid
      have hfa : (if (a.id == bid) = true then b' else a) = b' := by simp [haid]
      by_cases hbid : b.id = bid
      · have hbold : b = old := huniq b hb hbid
        have hfb : (if (b.id == bid) = true then b' else b) = b' := by simp [hbid]
        rw [hfa, hfb]
        intro hact1 _
        have hacto : activeB old = true := by
          rw [activeB_eq_true_iff]
          refine validTransition_active old.status ns hvalid ?_
          rw [hb'] at hact1
          rw [activeB_eq_true_iff] at hact1
          simpa using hact1
        rw [haold, hbold] at hab
        rw [hb', overlapping_status_left, overlapping_status_right]
        exact hab hacto hacto
      · have hfb : (if (b.id == bid) = true then b' else b) = b := by simp [hbid]
        rw [hfa, hfb]
        intro hact1 hact2
        have hacto : activeB old = true := by
          rw [activeB_eq_true_iff]
          refine validTransition_active old.status ns hvalid ?_
          rw [hb'] at hact1
          rw [activeB_eq_true_iff] at hact1
          simpa using hact1
        rw [haold] at hab
        rw [hb', overlapping_status_left]
        exact hab hacto hact2
    · have hfa : (if (a.id == bid) = true then b' else a) = a := by simp [haid]
      by_cases hbid : b.id = bid
      · have hbold : b = old := huniq b hb hbid
        have hfb : (if (b.id == bid) = true then b' else b) = b' := by simp [hbid]
        rw [hfa, hfb]
        intro hact1 hact2
        have hacto : activeB old = true := by
          rw [activeB_eq_true_iff]
          refine validTransition_active old.status ns hvalid ?_
          rw [hb'] at hact2
          rw [activeB_eq_true_iff] at hact2
          simpa using hact2
        rw [hbold] at hab
        rw [hb', overlapping_status_right]
        exact hab hact1 hacto
      · have hfb : (if (b.id == bid) = true then b' else b) = b := by simp [hbid]
        rw [hfa, hfb]
        exact hab

/-- Each call of `applyOp` preserves well-formedness and the no-overlap
invariant. -/
lemma applyOp_pres (st : St) (op : Op)
    (h : WfP st ∧ ConflictFreeP st.bookings) :
    WfP (applyOp st op) ∧ ConflictFreeP (applyOp st op).bookings := by
  cases op with
  | create f c d s e =>
    cases hcb : createBooking st f c d s e with
    | ok p =>
      obtain ⟨st', bk⟩ := p
      have heq : applyOp st (.create f c d s e) = st' := by simp [applyOp, hcb]
      rw [heq]
      exact createBooking_preservesP st f c d s e st' bk hcb h.1 h.2
    | error err =>
      have heq : applyOp st (.create f c d s e) = st := by simp [applyOp, hcb]
      rw [heq]
      exact h
  | setStatus bid ns =>
    cases hcb : setBookingStatus st bid ns with
    | ok p =>
      obtain ⟨st', b'⟩ := p
      have heq : applyOp st (.setStatus bid ns) = st' := by simp [applyOp, hcb]
      rw [heq]
      exact setBookingStatus_preservesP st bid ns st' b' hcb h.1 h.2
    | error err =>
      have heq : applyOp st (.setStatus bid ns) = st := by simp [applyOp, hcb]
      rw [heq]
      exact h

/-- Folding any call sequence preserves both invariants. -/
lemma foldl_applyOp_inv (ops : List Op) (st0 : St)
    (h : WfP st0 ∧ ConflictFreeP st0.bookings) :
    WfP (ops.foldl applyOp st0) ∧ ConflictFreeP ((ops.foldl applyOp st0).bookings) := by
  induction ops generalizing st0 with
  | nil => exact h
  | cons op t ih =>
    rw [List.foldl_cons]
    exact ih (applyOp st0 op) (applyOp_pres st0 op h)

/-- Propositional reading of one row's contribution to
`check_booking_conflicts`. -/
lemma conflict_row_iff (b : Booking) (fac date s e : Nat) (excl : Option Nat) :
    (decide (b.facilityId = fac) && decide (b.bookingDate = date) &&
      (decide (b.status = .pending) || decide (b.status = .approved)) &&
      (match excl with
       | none => true
       | some x => decide (b.id ≠ x)) &&
      overlapTest b.startTime b.endTime s e) = true ↔
    (b.facilityId = fac ∧ b.bookingDate = date ∧
      (b.status = .pending ∨ b.status = .approved) ∧
      (∀ x, excl = some x → b.id ≠ x) ∧ b.startTime < e ∧ b.endTime > s) := by
  cases excl <;> simp [overlapTest] <;> tauto

/-- No status keeps itself under `validTransition`. -/
lemma validTransition_irrefl (s : BookingStatus) : validTransition s s = false := by
  cases s <;> rfl

/-- Propositional reading of JavaScript falsiness on optional strings. -/
lemma jsFalsy_iff (o : Option String) :
    jsFalsy o = true ↔ (o = none ∨ o = some "") := by
  cases o <;> simp [jsFalsy]

/-!
## Claims
-/

/-- C1: starting from a well-formed, conflict-free state, after any sequence
of `CreateBooking`/`SetBookingStatus` calls (successful ones take effect,
failed ones leave the state unchanged), no two bookings with status in
{pending, approved} have overlapping half-open intervals on any facility and
date. -/
theorem no_overlap_invariant (ops : List Op) (st0 : St)
    (hwf : wfSt st0 = true) (hcf : conflictFree st0.bookings = true) :
    conflictFree ((ops.foldl applyOp st0).bookings) = true := by
  rw [conflictFree_iff]
  exact (foldl_applyOp_inv ops st0
    ⟨(wfSt_iff st0).mp hwf, (conflictFree_iff st0.bookings).mp hcf⟩).2

/-- Witness for C1 on a concrete run: an empty state, one successful create,
one conflicting create and one approval. -/
theorem no_overlap_invariant_witness :
    wfSt st0W = true ∧ conflictFree st0W.bookings = true ∧
      conflictFree ((opsW.foldl applyOp st0W).bookings) = true :=
  ⟨by decide, by decide, no_overlap_invariant opsW st0W (by decide) (by decide)⟩

/-- C2: `HasConflict` is true iff some stored booking shares the facility and
date, is pending or approved, differs from the excluded id when one is given,
and overlaps the query interval under half-open semantics; in particular,
against a state holding only booking `A`, querying `A`'s own interval with
`excludeBookingId = A.id` yields false. -/
theorem hasConflict_iff (bookings : List Booking) (fac date s e : Nat)
    (excl : Option Nat) :
    (check_booking_conflicts bookings fac date s e excl = true ↔
      ∃ b ∈ bookings, b.facilityId = fac ∧ b.bookingDate = date ∧
        (b.status = .pending ∨ b.status = .approved) ∧
        (∀ x, excl = some x → b.id ≠ x) ∧
        b.startTime < e ∧ b.endTime > s) ∧
    ∀ b : Booking, check_booking_conflicts [b] b.facilityId b.bookingDate
      b.startTime b.endTime (some b.id) = false := by
  constructor
  · simp only [check_booking_conflicts, List.any_eq_true, conflict_row_iff]
  · intro b
    simp [check_booking_conflicts]

/-- C3: a `CreateBooking` whose interval conflicts with an existing pending
or approved booking fails with `ConflictError` and leaves the state — the
bookings and the notifications — unchanged. -/
theorem conflicting_create_rejected (st : St) (f c d s e : Nat)
    (h : check_booking_conflicts st.bookings f d s e none = true) :
    createBooking st f c d s e = .error .conflictError ∧
      applyOp st (.create f c d s e) = st := by
  have h1 : createBooking st f c d s e = .error .conflictError := by
    unfold createBooking
    rw [if_pos h]
  exact ⟨h1, by simp [applyOp, h1]⟩

/-- Witness for C3: creating 09:30–10:30 against a stored pending
09:00–10:00 booking is rejected and changes nothing. -/
theorem conflicting_create_rejected_witness :
    check_booking_conflicts stConfW.bookings 1 0 (hm 9 30) (hm 10 30) none = true ∧
      (createBooking stConfW 1 3 0 (hm 9 30) (hm 10 30) = .error .conflictError ∧
        applyOp stConfW (.create 1 3 0 (hm 9 30) (hm 10 30)) = stConfW) :=
  ⟨by decide, conflicting_create_rejected stConfW 1 3 0 (hm 9 30) (hm 10 30) (by decide)⟩

/-- C4: every successful `CreateBooking` persists a booking with status
`pending`, payment status `pending`, and `totalHours` equal to
`ComputeDuration(start, end)`. -/
theorem create_persists_pending (st : St) (f c d s e : Nat) (st' : St)
    (bk : Booking) (h : createBooking st f c d s e = .ok (st', bk)) :
    bk.status = .pending ∧ bk.paymentStatus = .pending ∧
      bk.totalHours = calculate_booking_duration s e := by
  obtain ⟨_, _, _, _, _, _, _, _, hth, _, hstatus, hpay, _, _, _, _⟩ :=
    createBooking_ok st f c d s e st' bk h
  exact ⟨hstatus, hpay, hth⟩

/-- Witness for C4 on a concrete successful create of 09:00–10:30. -/
theorem create_persists_pending_witness :
    createBooking st0W 1 2 0 (hm 9 0) (hm 10 30) = .ok (createResW.1, createResW.2) ∧
      (createResW.2.status = .pending ∧ createResW.2.paymentStatus = .pending ∧
        createResW.2.totalHours = calculate_booking_duration (hm 9 0) (hm 10 30)) :=
  ⟨by rfl, create_persists_pending st0W 1 2 0 (hm 9 0) (hm 10 30) createResW.1
    createResW.2 (by rfl)⟩

/-- C5: for a stored booking, `SetBookingStatus` permits exactly the
transitions pending→approved, pending→denied, pending→cancelled,
approved→cancelled and approved→completed; any other requested transition
(in particular out of `denied`) fails with `StateError` and leaves the state
unchanged. -/
theorem setBookingStatus_transition_table (st : St) (bid : Nat)
    (ns : BookingStatus) (b : Booking)
    (hfind : (st.bookings.find? fun x => x.id == bid) = some b) :
    (validTransition b.status ns = true ↔
      ((b.status = .pending ∧ ns = .approved) ∨
        (b.status = .pending ∧ ns = .denied) ∨
        (b.status = .pending ∧ ns = .cancelled) ∨
        (b.status = .approved ∧ ns = .cancelled) ∨
        (b.status = .approved ∧ ns = .completed))) ∧
    (validTransition b.status ns = true →
      ∃ st' b', setBookingStatus st bid ns = .ok (st', b')) ∧
    (validTransition b.status ns = false →
      setBookingStatus st bid ns = .error .stateError ∧
        applyOp st (.setStatus bid ns) = st) := by
  refine ⟨?_, ?_, ?_⟩
  · cases hbs : b.status <;> cases ns <;> simp [validTransition]
  · intro hv
    simp only [setBookingStatus, hfind]
    rw [if_pos hv]
    exact ⟨_, _, rfl⟩
  · intro hv
    have h1 : setBookingStatus st bid ns = .error .stateError := by
      simp only [setBookingStatus, hfind]
      rw [if_neg (by simp [hv])]
    exact ⟨h1, by simp [applyOp, h1]⟩

/-- Witness for C5: approving a denied booking fails with `StateError` and
changes nothing. -/
theorem setBookingStatus_transition_table_witness :
    ((st5W.bookings.find? fun x => x.id == 1) = some b5W) ∧
      validTransition b5W.status .approved = false ∧
      (setBookingStatus st5W 1 .approved = .error .stateError ∧
        applyOp st5W (.setStatus 1 .approved) = st5W) :=
  ⟨by decide, by decide,
    (setBookingStatus_transition_table st5W 1 .approved b5W (by decide)).2.2 (by decide)⟩

/-- C6: every successful `SetBookingStatus` emits exactly one `status_update`
notification addressed to the booking's customer, and a call with the current
status as target changes nothing — in particular it emits no notification. -/
theorem statusChange_notification (st : St) (bid : Nat) (ns : BookingStatus) :
    (∀ st' b', setBookingStatus st bid ns = .ok (st', b') →
      ∃ n, st'.notifications = n :: st.notifications ∧
        n.notificationType = "status_update" ∧ n.userId = b'.customerId) ∧
    (∀ b, (st.bookings.find? fun x => x.id == bid) = some b → ns = b.status →
      applyOp st (.setStatus bid ns) = st) := by
  constructor
  · intro st' b' h
    obtain ⟨old, _, hvalid, hb', _, hnotif, _, _, _⟩ :=
      setBookingStatus_ok st bid ns st' b' h
    have hne : old.status ≠ ns := validTransition_ne old.status ns hvalid
    have hif : notify_customer_on_status_change st.notifications old b' =
        { userId := b'.customerId, bookingId := b'.id,
          notificationType := "status_update",
          title := "Booking " ++ b'.status.text,
          message := "Your booking for " ++ toString b'.bookingDate ++
            " has been " ++ b'.status.text } :: st.notifications := by
      unfold notify_customer_on_status_change
      rw [if_pos (by rw [hb']; exact hne)]
      rfl
    exact ⟨_, by rw [hnotif, hif], rfl, rfl⟩
  · intro b hfind heq
    have hvf : validTransition b.status ns = false := by
      rw [heq]
      exact validTransition_irrefl b.status
    have h1 : setBookingStatus st bid ns = .error .stateError := by
      simp only [setBookingStatus, hfind]
      rw [if_neg (by simp [hvf])]
    simp [applyOp, h1]

/-- Witness for C6: approving a pending booking prepends one `status_update`
notification to its customer; re-requesting `pending` changes nothing. -/
theorem statusChange_notification_witness :
    (∃ n, set6ResW.1.notifications = n :: st6W.notifications ∧
      n.notificationType = "status_update" ∧ n.userId = set6ResW.2.customerId) ∧
      applyOp st6W (.setStatus 1 .pending) = st6W :=
  ⟨(statusChange_notification st6W 1 .approved).1 set6ResW.1 set6ResW.2 (by rfl),
    (statusChange_notification st6W 1 .pending).2 b6W (by decide) (by decide)⟩

/-- C7: touching intervals do not conflict: with only one pending or approved
booking over `[a, b)` on a facility and date, the conflict check for the
query interval `[b, c)` with `a < b < c` is false. -/
theorem touching_intervals_no_conflict (id fac cust date a b c : Nat)
    (status : BookingStatus) (pay : PaymentStatus) (th ta : ℚ)
    (hab : a < b) (hbc : b < c)
    (hstatus : status = .pending ∨ status = .approved) :
    check_booking_conflicts
      [{ id := id, facilityId := fac, customerId := cust, bookingDate := date,
         startTime := a, endTime := b, totalHours := th, totalAmount := ta,
         status := status, paymentStatus := pay }] fac date b c none = false := by
  have hov : overlapTest a b b c = false := by
    cases hx : overlapTest a b b c
    · rfl
    · exfalso
      rw [overlapTest_eq_true_iff] at hx
      omega
  simp [check_booking_conflicts, hov]

/-- Witness for C7: booking 09:00–10:00, query 10:00–11:00. -/
theorem touching_intervals_no_conflict_witness :
    hm 9 0 < hm 10 0 ∧ hm 10 0 < hm 11 0 ∧
      (BookingStatus.pending = .pending ∨ BookingStatus.pending = .approved) ∧
      check_booking_conflicts
        [{ id := 0, facilityId := 1, customerId := 2, bookingDate := 0,
           startTime := hm 9 0, endTime := hm 10 0, totalHours := 1,
           totalAmount := 20, status := .pending, paymentStatus := .pending }]
        1 0 (hm 10 0) (hm 11 0) none = false :=
  ⟨by decide, by decide, Or.inl rfl,
    touching_intervals_no_conflict 0 1 2 0 (hm 9 0) (hm 10 0) (hm 11 0)
      .pending .pending 1 20 (by decide) (by decide) (Or.inl rfl)⟩

/-- C8: the overlap test of `HasConflict` is symmetric in the two intervals:
swapping the roles of the existing booking and the query gives the same
result. -/
theorem overlap_test_symmetric (s1 e1 s2 e2 : Nat) :
    overlapTest s1 e1 s2 e2 = overlapTest s2 e2 s1 e1 := by
  simp only [overlapTest]
  exact Bool.or_comm _ _

/-- C9: `ComputeDuration(start, end)` is the signed elapsed seconds divided
by 3600 in fractional hours; in particular the duration from 09:00 to 10:30
is 1.5 hours. -/
theorem duration_elapsed_hours :
    (∀ s e : Nat, calculate_booking_duration s e * 3600 = (e : ℚ) - (s : ℚ)) ∧
      calculate_booking_duration (hm 9 0) (hm 10 30) = 3 / 2 := by
  constructor
  · intro s e
    unfold calculate_booking_duration
    push_cast
    ring
  · norm_num [calculate_booking_duration, hm]

/-- C10 as stated is false: the handler also rejects a request whose fields
are all present when one of them is the empty string (JavaScript falsiness),
as this concrete request with `userId = ""` shows. -/
theorem post_bookings_counterexample :
    reqEmptyUserW.userId ≠ none ∧ reqEmptyUserW.facilityId ≠ none ∧
      reqEmptyUserW.courtId ≠ none ∧ reqEmptyUserW.date ≠ none ∧
      reqEmptyUserW.timeSlot.bind TimeSlotReq.start ≠ none ∧
      reqEmptyUserW.timeSlot.bind TimeSlotReq.«end» ≠ none ∧
      postBookings [] reqEmptyUserW = ([], .badRequest "Missing required fields") := by
  decide

/-- C10 amended: the handler responds 400 "Missing required fields" and
leaves the list unchanged iff one of the six required fields is absent or the
empty string; otherwise it appends exactly one booking, with `totalPrice`
defaulting to 0 when absent, and responds 201 with that booking. -/
theorem post_bookings_spec (bookings : List RouteBooking) (req : BookingReq) :
    (missingFields req = true ↔
      (req.userId = none ∨ req.userId = some "" ∨
        req.facilityId = none ∨ req.facilityId = some "" ∨
        req.courtId = none ∨ req.courtId = some "" ∨
        req.date = none ∨ req.date = some "" ∨
        req.timeSlot.bind TimeSlotReq.start = none ∨
        req.timeSlot.bind TimeSlotReq.start = some "" ∨
        req.timeSlot.bind TimeSlotReq.«end» = none ∨
        req.timeSlot.bind TimeSlotReq.«end» = some "")) ∧
    (missingFields req = true →
      postBookings bookings req = (bookings, .badRequest "Missing required fields")) ∧
    (missingFields req = false →
      postBookings bookings req =
        (bookings ++ [mkRouteBooking bookings req],
          .created (mkRouteBooking bookings req)) ∧
        (req.totalPrice = none → (mkRouteBooking bookings req).totalPrice = 0)) := by
  refine ⟨?_, ?_, ?_⟩
  · simp only [missingFields, Bool.or_eq_true, jsFalsy_iff]
    tauto
  · intro h
    simp [postBookings, h]
  · intro h
    refine ⟨by simp [postBookings, h], ?_⟩
    intro hnone
    simp [mkRouteBooking, hnone]

/-- Witness for the amended C10: a request missing `facilityId` is rejected
with the list unchanged; a complete request without `totalPrice` is appended
with price 0 and returned. -/
theorem post_bookings_spec_witness :
    (missingFields reqMissingW = true ∧
      postBookings [] reqMissingW = ([], .badRequest "Missing required fields")) ∧
    (missingFields reqGoodW = false ∧
      (postBookings [] reqGoodW =
        ([mkRouteBooking [] reqGoodW], .created (mkRouteBooking [] reqGoodW)) ∧
        (reqGoodW.totalPrice = none → (mkRouteBooking [] reqGoodW).totalPrice = 0))) :=
  ⟨⟨by decide, (post_bookings_spec [] reqMissingW).2.1 (by decide)⟩,
    ⟨by decide, (post_bookings_spec [] reqGoodW).2.2 (by decide)⟩⟩

